import Mathlib

/-!
Verification of the job-orchestration core of the music-visualizer server:
a shallow embedding of `src/server/services/demucs_service.py`,
`src/server/services/soundcloud_service.py` and
`src/server/routes/separation.py`, followed by theorems about the
embedded definitions.

Modelling conventions:
* the Python dict `DemucsService.jobs` is a map `String → Option JobStatus`;
* the filesystem is a pair of maps: file path → size, dir path → Bool;
* network and subprocess interactions are oracle parameters describing the
  outcome of each external call (status code, body, files written);
* `float` progress values are rationals (all values in the source are exact);
* Python truthiness of optional strings / lists is made explicit.
-/

namespace MusicVisualizer

/-- Python truthiness of an optional string (`None` and `""` are falsy). -/
def strTruthy : Option String → Bool
  | none => false
  | some s => !s.isEmpty

/-- Python truthiness of an optional list (`None` and `[]` are falsy). -/
def listTruthy : Option (List String) → Bool
  | none => false
  | some l => !l.isEmpty

/-! ### Path helpers (`os.path`) -/

/-- Index of the last occurrence of a character in a list of characters. -/
def lastIdxOf (ch : Char) (cs : List Char) : Option Nat :=
  cs.enum.foldl (fun acc p => if p.2 = ch then some p.1 else acc) none

/-- `os.path.basename`: the part of the path after the last `/`. -/
def basename (p : String) : String :=
  match lastIdxOf '/' p.toList with
  | none => p
  | some s1 => String.mk (p.toList.drop (s1 + 1))

/-- Position where the extension starts, following `posixpath.splitext`:
the last dot, provided it lies inside the basename and some character of
the basename strictly before it is not a dot (leading dots do not begin
an extension). -/
def splitextPos (cs : List Char) : Option Nat :=
  match lastIdxOf '.' cs with
  | none => none
  | some d =>
    let start := match lastIdxOf '/' cs with
      | none => 0
      | some s1 => s1 + 1
    if start ≤ d ∧ ((cs.drop start).take (d - start)).any (fun c => c ≠ '.') then
      some d
    else
      none

/-- `os.path.splitext(p)[0]`. -/
def splitextStem (p : String) : String :=
  match splitextPos p.toList with
  | none => p
  | some d => String.mk (p.toList.take d)

/-- `os.path.splitext(p)[1]`. -/
def splitextExtension (p : String) : String :=
  match splitextPos p.toList with
  | none => ""
  | some d => String.mk (p.toList.drop d)

/-! ### Filesystem model -/

/-- Is the first list of characters a prefix of the second? -/
def isPrefixList : List Char → List Char → Bool
  | [], _ => true
  | _ :: _, [] => false
  | a :: as, b :: bs => a = b && isPrefixList as bs

/-- `str.endswith`. -/
def endsWithStr (s suffixStr : String) : Bool :=
  isPrefixList suffixStr.data.reverse s.data.reverse

/-- Is `p` the path `root` itself or a path strictly inside `root`?
Used to model `shutil.rmtree`. -/
def under (root p : String) : Bool :=
  p = root || isPrefixList (root ++ "/").data p.data

/-- Filesystem state: files (with their sizes) and directories. -/
structure FS where
  files : String → Option Nat
  dirs : String → Bool

/-- `os.path.exists` restricted to files. -/
def FS.existsFile (fs : FS) (p : String) : Bool :=
  (fs.files p).isSome

/-- `os.path.exists`. -/
def FS.existsPath (fs : FS) (p : String) : Bool :=
  fs.existsFile p || fs.dirs p

/-- `os.path.getsize` (0 when the file is absent; only ever consulted
after an existence check, mirroring the short-circuit in the source). -/
def FS.getsize (fs : FS) (p : String) : Nat :=
  (fs.files p).getD 0

/-- `os.makedirs(p, exist_ok=True)`. -/
def FS.makedirs (fs : FS) (p : String) : FS :=
  { fs with dirs := fun x => if x = p then true else fs.dirs x }

/-- Write a file of size `n` at `p` (creating or overwriting). -/
def FS.writeFile (fs : FS) (p : String) (n : Nat) : FS :=
  { fs with files := fun x => if x = p then some n else fs.files x }

/-- `os.remove`. -/
def FS.removeFile (fs : FS) (p : String) : FS :=
  { fs with files := fun x => if x = p then none else fs.files x }

/-- `shutil.move` of a single file. -/
def FS.move (fs : FS) (src dst : String) : FS :=
  (fs.removeFile src).writeFile dst (fs.getsize src)

/-- `shutil.rmtree`: remove the directory and everything under it. -/
def FS.rmtree (fs : FS) (p : String) : FS :=
  { files := fun x => if under p x then none else fs.files x,
    dirs := fun x => if under p x then false else fs.dirs x }

/-- Add a list of directories (the subdirectories an external process
created). -/
def FS.addDirs (fs : FS) (ds : List String) : FS :=
  ds.foldl FS.makedirs fs

/-- Add a list of files (the files an external process wrote). -/
def FS.addFiles (fs : FS) (ws : List (String × Nat)) : FS :=
  ws.foldl (fun a pn => a.writeFile pn.1 pn.2) fs

/-- The empty filesystem. -/
def fsEmpty : FS := ⟨fun _ => none, fun _ => false⟩

/-! ### Job registry (`DemucsService.jobs`) -/

/-- One record of the `jobs` dict: the `JobStatus` dataclass of
`demucs_service.py` (field defaults match the dataclass defaults). -/
structure JobStatus where
  status : String := "pending"
  progress : ℚ := 0
  stems : Option (List String) := none
  error : Option String := none
deriving DecidableEq, Repr

/-- The registry: the `DemucsService.jobs` dict. -/
def Registry := String → Option JobStatus

/-- The empty registry (`self.jobs = {}` in `DemucsService.__init__`). -/
def rEmpty : Registry := fun _ => none

/-- `self.jobs.get(job_id)` (also `DemucsService.get_job_status`). -/
def rfind (r : Registry) (id : String) : Option JobStatus := r id

/-- `self.jobs[job_id] = j` (insert or replace). -/
def rset (r : Registry) (id : String) (j : JobStatus) : Registry :=
  fun x => if x = id then some j else r x

/-- In-place mutation of the record stored at `id`
(`self.jobs[job_id].field = v`); a no-op when `id` is absent (every use
site in the source is guarded by prior insertion or a membership test). -/
def rupdate (r : Registry) (id : String) (f : JobStatus → JobStatus) : Registry :=
  fun x => if x = id then (r x).map f else r x

/-! ### DemucsService -/

/-- `DemucsService.MODEL`. -/
def MODEL : String := "htdemucs_ft"

/-- `DemucsService.STEMS`. -/
def STEMS : List String := ["drums", "bass", "vocals", "other"]

/-- The wall-clock timeout passed to `subprocess.run` in
`DemucsService.separate` (seconds). -/
def SEPARATE_TIMEOUT : Nat := 600

/-- Outcome of the `subprocess.run` invocation of the demucs engine:
either the wall-clock timeout expired (`subprocess.TimeoutExpired`), or
the process ran to completion with a return code, captured stderr, and
the files/directories it wrote under the output directory. -/
inductive EngineOutcome where
  | timeout
  | run (returncode : Int) (stderr : String)
      (writtenFiles : List (String × Nat)) (writtenDirs : List String)

/-- Effect of a completed engine run on the filesystem. -/
def applyRun (fs : FS) (wf : List (String × Nat)) (wd : List String) : FS :=
  (fs.addFiles wf).addDirs wd

/-- `output_dir/job_id`: the job's flat output directory. -/
def jobDirOf (od id : String) : String := od ++ "/" ++ id

/-- `output_dir/job_id/htdemucs_ft`: the engine-specific subdirectory. -/
def demucsSubdirOf (od id : String) : String := jobDirOf od id ++ "/" ++ MODEL

/-- `output_dir/job_id/htdemucs_ft/<input filename>`: where the engine
writes the stems. -/
def demucsOutputOf (od id inputPath : String) : String :=
  demucsSubdirOf od id ++ "/" ++ splitextStem (basename inputPath)

/-- Source path of one stem file inside the engine's nested directory. -/
def stemSrc (od id inputPath stem : String) : String :=
  demucsOutputOf od id inputPath ++ "/" ++ stem ++ ".wav"

/-- Destination path of one stem file in the flat output directory. -/
def stemDst (od id stem : String) : String :=
  jobDirOf od id ++ "/" ++ stem ++ ".wav"

/-- One iteration of the stem-relocation loop in `DemucsService.separate`:
if the stem file exists in the engine's nested directory, move it to the
flat output directory and record the stem name. -/
def moveStem (jobDir demucsOutput : String) (acc : List String × FS)
    (stem : String) : List String × FS :=
  let src := demucsOutput ++ "/" ++ stem ++ ".wav"
  let dst := jobDir ++ "/" ++ stem ++ ".wav"
  if acc.2.existsPath src then (acc.1 ++ [stem], acc.2.move src dst) else acc

/-- `DemucsService.separate(job_id, input_path)`, with the engine
invocation replaced by its outcome `eng`. Returns the registry and the
filesystem after the call. `od` is `self.output_dir`. -/
def separate (od : String) (r : Registry) (fs : FS) (id inputPath : String)
    (eng : EngineOutcome) : Registry × FS :=
  let r := rset r id { status := "processing", progress := 1/10 }
  let jobDir := jobDirOf od id
  let fs := fs.makedirs jobDir
  let r := rupdate r id (fun j => { j with progress := 1/5 })
  match eng with
  | .timeout =>
      (rset r id { status := "failed",
                   error := some "Processing timeout - file may be too large" }, fs)
  | .run rc stderr wf wd =>
      let fs := applyRun fs wf wd
      if rc ≠ 0 then
        (rset r id { status := "failed",
                     error := some ("Demucs failed: " ++ stderr) }, fs)
      else
        let r := rupdate r id (fun j => { j with progress := 9/10 })
        let demucsOutput := demucsOutputOf od id inputPath
        let res := STEMS.foldl (moveStem jobDir demucsOutput) ([], fs)
        let fs := res.2
        let demucsSubdir := demucsSubdirOf od id
        let fs := if fs.existsPath demucsSubdir then fs.rmtree demucsSubdir else fs
        let fs := if fs.existsPath inputPath then fs.removeFile inputPath else fs
        (rset r id { status := "completed", progress := 1, stems := some res.1 }, fs)

/-- `DemucsService.cancel_job(job_id)`: returns the boolean result and
the registry/filesystem after the call. -/
def cancel_job (od : String) (r : Registry) (fs : FS) (id : String) :
    Bool × Registry × FS :=
  if (r id).isSome then
    let r := rupdate r id (fun j => { j with status := "cancelled" })
    let jobDir := jobDirOf od id
    let fs := if fs.existsPath jobDir then fs.rmtree jobDir else fs
    (true, r, fs)
  else (false, r, fs)

/-! ### SoundCloudService -/

/-- `TOKEN_REFRESH_BUFFER` in `soundcloud_service.py` (seconds). -/
def TOKEN_REFRESH_BUFFER : ℚ := 300

/-- Mutable state of `SoundCloudService`: configured credentials (from the
environment at construction, never mutated) and the cached token with its
expiry instant (`time.monotonic()` values modelled as rationals). -/
structure ScState where
  client_id : String
  client_secret : String
  access_token : Option String := none
  token_expires_at : ℚ := 0
deriving DecidableEq, Repr

/-- `SoundCloudService.is_configured` (`bool(self._client_id and
self._client_secret)`). -/
def ScState.configured (s : ScState) : Bool :=
  !s.client_id.isEmpty && !s.client_secret.isEmpty

/-- Outcome of one POST to the token endpoint: a non-200 response with its
body text, or a 200 response whose JSON carried `access_token` (possibly
missing/empty) and `expires_in` (defaulting to 3600 when absent, applied
by the caller). -/
inductive TokenExchange where
  | failure (status : Nat) (text : String)
  | success (tok : Option String) (expires_in : Nat)

/-- `SoundCloudService._get_token`, with the network exchange replaced by
its outcome `ex` and `time.monotonic()` by `now`. Returns the result (the
token, or the raised `SoundCloudError` message), the service state after
the call, and the number of credential exchanges performed (0 or 1). -/
def get_token (s : ScState) (now : ℚ) (ex : TokenExchange) :
    Except String String × ScState × Nat :=
  if strTruthy s.access_token ∧ now < s.token_expires_at - TOKEN_REFRESH_BUFFER then
    (.ok (s.access_token.getD ""), s, 0)
  else if !s.configured then
    (.error "SoundCloud credentials not configured. Set SOUNDCLOUD_CLIENT_ID and SOUNDCLOUD_CLIENT_SECRET.",
      s, 0)
  else
    match ex with
    | .failure st text =>
        (.error ("Failed to get SoundCloud token: " ++ toString st ++ " " ++ text), s, 1)
    | .success tok e =>
        let s' := { s with access_token := tok, token_expires_at := now + (e : ℚ) }
        if strTruthy tok then (.ok (tok.getD ""), s', 1)
        else (.error "SoundCloud token response missing access_token", s', 1)

/-- The JSON body of a 200 resolve response, as consulted by the source
(`resource.get("kind")`, `resource.get("access", "")`,
`resource.get("stream_url")`, `resource.get("id")`). -/
structure Resource where
  kind : Option String := none
  access : Option String := none
  stream_url : Option String := none
  trackId : Option Nat := none
deriving DecidableEq, Repr

/-- Response of the GET to the resolve endpoint: status, body text, and
the parsed track JSON (consulted only on status 200). -/
structure ResolveResp where
  status : Nat
  text : String := ""
  jsonTrack : Option Resource := none
deriving Repr

/-- Response of the GET to the `/tracks/{id}/streams` fallback endpoint. -/
structure StreamsResp where
  status : Nat
  isDict : Bool := true
  http_mp3_128_url : Option String := none
  hls_mp3_128_url : Option String := none
  preview_mp3_128_url : Option String := none
deriving Repr

/-- Response of the GET to the stream URL itself: status, and body size
when 200. -/
structure StreamResp where
  status : Nat
  size : Nat := 0
deriving Repr

/-- The network endpoints `resolve_and_download` may contact, in order. -/
inductive Endpoint where
  | resolve | streams | stream
deriving DecidableEq, Repr

/-- Python `a or b` on optional strings (falsy values skipped). -/
def orTruthy (a b : Option String) : Option String :=
  if strTruthy a then a else b

/-- `SoundCloudService.resolve_and_download(soundcloud_url, output_path)`,
with each network interaction replaced by its outcome. Returns the result
(`()` or the raised `SoundCloudError` message), the service state, the
filesystem, and the trace of endpoints actually contacted. -/
def resolve_and_download (s : ScState) (now : ℚ) (ex : TokenExchange)
    (rr : ResolveResp) (sr : StreamsResp) (dr : StreamResp)
    (fs : FS) (outputPath : String) :
    Except String Unit × ScState × FS × List Endpoint :=
  match get_token s now ex with
  | (.error m, s1, _) => (.error m, s1, fs, [])
  | (.ok _, s1, _) =>
    let trace := [Endpoint.resolve]
    if rr.status = 401 then
      (.error "SoundCloud authentication failed. Check your credentials.",
        { s1 with access_token := none }, fs, trace)
    else if rr.status = 404 then
      (.error "SoundCloud URL not found.", s1, fs, trace)
    else if rr.status = 403 then
      (.error "Access to this SoundCloud resource is forbidden.", s1, fs, trace)
    else if rr.status ≠ 200 then
      (.error ("SoundCloud resolve failed: " ++ toString rr.status ++ " " ++ rr.text),
        s1, fs, trace)
    else
      let resource := rr.jsonTrack.getD {}
      if resource.kind ≠ some "track" then
        (.error "Only single track URLs are supported. Playlists and user pages are not supported.",
          s1, fs, trace)
      else
        let access := resource.access.getD ""
        if access ≠ "playable" then
          if access = "blocked" then
            (.error "This track is not available for streaming (e.g. restricted or paywalled).",
              s1, fs, trace)
          else if access = "preview" then
            (.error "Only full playable tracks are supported. This track has preview-only access.",
              s1, fs, trace)
          else
            (.error ("This track is not streamable (access: " ++ access ++ ")."),
              s1, fs, trace)
        else
          let su0 := resource.stream_url
          let lookedUp :=
            if !strTruthy su0 then
              match resource.trackId with
              | some _ =>
                (some (if sr.status = 200 ∧ sr.isDict then
                        orTruthy sr.http_mp3_128_url
                          (orTruthy sr.hls_mp3_128_url sr.preview_mp3_128_url)
                      else none),
                  trace ++ [Endpoint.streams])
              | none => (none, trace)
            else (none, trace)
          let su := match lookedUp.1 with
            | some v => v
            | none => su0
          let trace := lookedUp.2
          if !strTruthy su then
            (.error "No stream URL available for this track.", s1, fs, trace)
          else
            let trace := trace ++ [Endpoint.stream]
            if dr.status = 401 then
              (.error "SoundCloud stream authentication failed.",
                { s1 with access_token := none }, fs, trace)
            else if dr.status ≠ 200 then
              (.error ("Failed to download stream: " ++ toString dr.status), s1, fs, trace)
            else
              (.ok (), s1, fs.writeFile outputPath dr.size, trace)

/-! ### Routes (`separation.py`) -/

/-- The total request timeout passed to `aiohttp` by
`download_audio_from_url` (seconds). -/
def DOWNLOAD_TIMEOUT : Nat := 300

/-- Outcome of the HTTP GET inside `download_audio_from_url`: a 200
response fully streamed to disk (with the resulting size), a non-200
response (detected before the destination file is opened), or a network,
timeout or I/O error after an optional partial write. -/
inductive DownloadOutcome where
  | ok (size : Nat)
  | non200 (status : Nat)
  | netError (partialWrite : Option Nat)

/-- `download_audio_from_url(url, output_path)` with the network replaced
by its outcome: the boolean result and the filesystem after the call. -/
def download_audio_from_url (fs : FS) (outputPath : String)
    (dl : DownloadOutcome) : Bool × FS :=
  match dl with
  | .ok n => (true, fs.writeFile outputPath n)
  | .non200 _ => (false, fs)
  | .netError p =>
      (false, match p with
              | some n => fs.writeFile outputPath n
              | none => fs)

/-- Body of `SeparationResponse`. -/
structure SeparationResponse where
  job_id : String
  status : String
  message : String
deriving DecidableEq, Repr

/-- Result of a request handler: the registry, the filesystem, the HTTP
response (an `HTTPException` status/detail, or the success body), and
whether `demucs_service.separate` was scheduled as a background task. -/
structure HandlerOut where
  jobs : Registry
  fs : FS
  response : Except (Nat × String) SeparationResponse
  scheduled : Bool
  inputPath : String

/-- `allowed_types` in `separate_audio`. -/
def allowedTypes : List String :=
  ["audio/mpeg", "audio/wav", "audio/mp3", "audio/x-wav", "audio/flac",
   "audio/m4a", "audio/x-m4a", "audio/mp4", "application/octet-stream"]

/-- `allowed_extensions` in `separate_audio`. -/
def allowedExtensions : List String :=
  [".mp3", ".wav", ".flac", ".m4a", ".mp4", ".aac"]

/-- The upload handler `separate_audio`, from validation to scheduling the
background task. `saveOk`/`saveErr` describe the outcome of writing the
uploaded bytes to disk; `upDir` is the uploads directory; the saved bytes
have size `size`. The registry is passed through untouched — the handler
never writes a job record. -/
def separate_audio (r : Registry) (fs : FS) (upDir : String)
    (contentType : String) (filename : Option String) (jobId : String)
    (saveOk : Bool) (saveErr : String) (size : Nat) : HandlerOut :=
  let fileExt := if strTruthy filename then
      (splitextExtension (filename.getD "")).toLower
    else ""
  if ¬ allowedTypes.contains contentType ∧ ¬ allowedExtensions.contains fileExt then
    ⟨r, fs, .error (400, "Invalid file type: " ++ contentType ++
        ". Allowed audio formats: MP3, WAV, FLAC, M4A"), false, ""⟩
  else if contentType = "application/octet-stream" ∧
      ¬ allowedExtensions.contains fileExt then
    ⟨r, fs, .error (400, "Invalid file extension: " ++ fileExt ++
        ". Allowed: " ++ "['.mp3', '.wav', '.flac', '.m4a', '.mp4', '.aac']"),
      false, ""⟩
  else
    let fileExt := if fileExt = "" then ".mp3" else fileExt
    let fs := fs.makedirs upDir
    let inputPath := upDir ++ "/" ++ jobId ++ fileExt
    if ¬ saveOk then
      ⟨r, fs, .error (500, "Failed to save file: " ++ saveErr), false, inputPath⟩
    else
      ⟨r, fs.writeFile inputPath size,
        .ok ⟨jobId, "processing",
          "Audio separation started. Poll /api/status/\x7bjob_id\x7d for progress."⟩,
        true, inputPath⟩

/-- The first registry write of `separate_from_url` (both branches):
`demucs_service.jobs[job_id] = JobStatus(status="downloading", progress=0.05)`,
performed before any acquisition work. -/
def url_job_init (r : Registry) (id : String) : Registry :=
  rset r id { status := "downloading", progress := 1/20 }

/-- File extension chosen by `separate_from_url` for a direct URL. -/
def urlExt (path : String) : String :=
  if endsWithStr path ".wav" then ".wav"
  else if endsWithStr path ".flac" then ".flac"
  else if endsWithStr path ".ogg" then ".ogg"
  else ".mp3"

/-- The direct-URL branch of `separate_from_url` (a non-SoundCloud host),
from directory creation to scheduling the background task, with the
download replaced by its outcome. `urlPath` is the lower-cased path
component of the parsed URL. -/
def separate_from_url_direct (r : Registry) (fs : FS) (upDir : String)
    (urlPath : String) (jobId : String) (dl : DownloadOutcome) : HandlerOut :=
  let fileExt := urlExt urlPath
  let fs := fs.makedirs upDir
  let inputPath := upDir ++ "/" ++ jobId ++ fileExt
  let r := url_job_init r jobId
  let res := download_audio_from_url fs inputPath dl
  let fs := res.2
  if ¬ res.1 ∨ ¬ fs.existsPath inputPath ∨ fs.getsize inputPath = 0 then
    ⟨rset r jobId { status := "failed",
                    error := some "Failed to download audio from URL. Make sure it's a direct audio link." },
      fs,
      .error (400, "Failed to download audio. Please provide a direct link to an audio file (MP3, WAV, FLAC)."),
      false, inputPath⟩
  else
    ⟨r, fs,
      .ok ⟨jobId, "processing",
        "Audio downloaded. Separation started. Poll /api/status/\x7bjob_id\x7d for progress."⟩,
      true, inputPath⟩

/-- Body of `StatusResponse`; `stems` maps stem names to URLs. -/
structure StatusResponse where
  job_id : String
  status : String
  progress : Option ℚ := none
  stems : Option (List (String × String)) := none
  error : Option String := none
deriving DecidableEq, Repr

/-- `get_status(job_id)`: 404 for an unknown job, otherwise the status
record, with the stems URL mapping attached exactly when the job is
completed and its stems list is truthy. -/
def get_status (r : Registry) (id : String) : Except (Nat × String) StatusResponse :=
  match rfind r id with
  | none => .error (404, "Job not found: " ++ id)
  | some job =>
    let base : StatusResponse :=
      { job_id := id, status := job.status, progress := some job.progress,
        stems := none, error := job.error }
    if job.status = "completed" ∧ listTruthy job.stems then
      .ok { base with
        stems := some ((job.stems.getD []).map
          (fun st => (st, "/stems/" ++ id ++ "/" ++ st ++ ".wav"))) }
    else .ok base

/-- `DELETE /api/job/{job_id}`: the `cancel_job` route. -/
def cancel_route (od : String) (r : Registry) (fs : FS) (id : String) :
    Except (Nat × String) String × Registry × FS :=
  let res := cancel_job od r fs id
  if res.1 then (.ok ("Job " ++ id ++ " cancelled"), res.2.1, res.2.2)
  else (.error (404, "Job not found: " ++ id), res.2.1, res.2.2)

/-! ### Registry mutation steps

Every mutation of `demucs_service.jobs` anywhere in the source is one of
the following steps (each constructor cites its site). `failWrite`
subsumes all five full-record failure writes (two in
`DemucsService.separate`, three in `separate_from_url`), which differ
only in the message. -/

inductive Step : Registry → Registry → Prop where
  /-- `separate` entry: `jobs[id] = JobStatus(PROCESSING, 0.1)`. -/
  | sepEntry (r : Registry) (id : String) :
      Step r (rset r id { status := "processing", progress := 1/10 })
  /-- `separate`: `jobs[id].progress = 0.2`. -/
  | sepProg2 (r : Registry) (id : String) :
      Step r (rupdate r id (fun j => { j with progress := 1/5 }))
  /-- `separate`: `jobs[id].progress = 0.9`. -/
  | sepProg9 (r : Registry) (id : String) :
      Step r (rupdate r id (fun j => { j with progress := 9/10 }))
  /-- `separate` success: `jobs[id] = JobStatus(COMPLETED, 1.0, stems_found)`. -/
  | sepDone (r : Registry) (id : String) (l : List String) :
      Step r (rset r id { status := "completed", progress := 1, stems := some l })
  /-- Any of the failure writes: `jobs[id] = JobStatus(FAILED, error=m)`. -/
  | failWrite (r : Registry) (id : String) (m : String) :
      Step r (rset r id { status := "failed", error := some m })
  /-- `separate_from_url`: `jobs[id] = JobStatus("downloading", 0.05)`. -/
  | urlDownloading (r : Registry) (id : String) :
      Step r (url_job_init r id)
  /-- `cancel_job` on a known id: `jobs[id].status = CANCELLED`. -/
  | cancelKnown (r : Registry) (id : String) (h : (r id).isSome) :
      Step r (rupdate r id (fun j => { j with status := "cancelled" }))

/-- Registries reachable from the empty registry of a fresh
`DemucsService` by the mutations occurring in the source. -/
inductive Reachable : Registry → Prop where
  | init : Reachable rEmpty
  | step {r r' : Registry} : Reachable r → Step r r' → Reachable r'

/-- The six status values of the specification. -/
def statusValues : List String :=
  ["pending", "downloading", "processing", "completed", "failed", "cancelled"]

/-- Per-record invariant (the amended form of the spec's invariant):
status is one of the six values; a non-empty stems list occurs only at
status `completed` or `cancelled`; a non-empty error only at `failed` or
`cancelled`; never both non-empty. -/
def recInv (j : JobStatus) : Prop :=
  j.status ∈ statusValues ∧
  (listTruthy j.stems → j.status = "completed" ∨ j.status = "cancelled") ∧
  (strTruthy j.error → j.status = "failed" ∨ j.status = "cancelled") ∧
  ¬(listTruthy j.stems = true ∧ strTruthy j.error = true)

/-- Registry-wide invariant. -/
def regInv (r : Registry) : Prop :=
  ∀ id j, r id = some j → recInv j

/-! ### Basic lemmas about the registry and filesystem models -/

@[simp]
theorem rfind_rset_self (r : Registry) (id : String) (j : JobStatus) :
    rfind (rset r id j) id = some j := by
  simp [rfind, rset]

@[simp]
theorem rfind_rupdate_self (r : Registry) (id : String) (f : JobStatus → JobStatus) :
    rfind (rupdate r id f) id = (r id).map f := by
  simp [rfind, rupdate]

theorem rset_apply (r : Registry) (id : String) (j : JobStatus) (x : String) :
    rset r id j x = if x = id then some j else r x := rfl

theorem rupdate_apply (r : Registry) (id : String) (f : JobStatus → JobStatus)
    (x : String) : rupdate r id f x = if x = id then (r x).map f else r x := rfl

@[simp]
theorem under_self (p : String) : under p p = true := by
  simp [under]

theorem dirs_move (fs : FS) (src dst : String) : (fs.move src dst).dirs = fs.dirs := rfl

theorem dirs_writeFile (fs : FS) (p : String) (n : Nat) :
    (fs.writeFile p n).dirs = fs.dirs := rfl

theorem existsPath_move_ne (fs : FS) (src dst q : String)
    (h1 : q ≠ src) (h2 : q ≠ dst) :
    (fs.move src dst).existsPath q = fs.existsPath q := by
  simp [FS.move, FS.removeFile, FS.writeFile, FS.existsPath, FS.existsFile, h1, h2]

theorem existsFile_move_preserved (fs : FS) (src dst q : String)
    (h1 : q ≠ src) (hq : fs.existsFile q = true) :
    (fs.move src dst).existsFile q = true := by
  simp only [FS.move, FS.removeFile, FS.writeFile, FS.existsFile] at *
  by_cases h2 : q = dst <;> simp [h1, h2, hq]

/-! ### C5: engine timeout and non-zero exit -/

/-- C5: an engine invocation that exceeds the 600-second wall-clock
timeout sets the job to failed with the distinct "Processing timeout"
message, and a non-zero exit code sets it to failed with an error
carrying the engine's stderr, prefixed "Demucs failed: " — a prefix the
timeout message does not have, so the two are distinguishable. -/
theorem C5_timeout_and_failure (od : String) (r : Registry) (fs : FS)
    (id inputPath stderr : String) (rc : Int) (wf : List (String × Nat))
    (wd : List String) (hrc : rc ≠ 0) :
    SEPARATE_TIMEOUT = 600 ∧
    rfind (separate od r fs id inputPath .timeout).1 id =
      some { status := "failed", progress := 0, stems := none,
             error := some "Processing timeout - file may be too large" } ∧
    rfind (separate od r fs id inputPath (.run rc stderr wf wd)).1 id =
      some { status := "failed", progress := 0, stems := none,
             error := some ("Demucs failed: " ++ stderr) } ∧
    isPrefixList "Demucs failed: ".data
      "Processing timeout - file may be too large".data = false := by
  refine ⟨rfl, ?_, ?_, by decide⟩
  · simp [separate, rfind, rset]
  · simp [separate, rfind, rset, hrc]

/-- Witness for C5 at a concrete failing engine run. -/
theorem C5_witness :
    rfind (separate "out" rEmpty fsEmpty "J" "up/J.mp3"
        (.run 1 "boom" [] [])).1 "J" =
      some { status := "failed", progress := 0, stems := none,
             error := some ("Demucs failed: " ++ "boom") } :=
  (C5_timeout_and_failure "out" rEmpty fsEmpty "J" "up/J.mp3" "boom" 1 [] []
    (by decide)).2.2.1

/-! ### C9: cancellation -/

/-- C9: cancelling an unknown job id yields a 404 and changes neither the
registry nor the filesystem; cancelling a known job, whatever its current
status, succeeds, sets the status to cancelled (leaving the other fields
as they were), and removes the job's output directory if it exists. -/
theorem C9_cancellation (od : String) (r : Registry) (fs : FS) (id : String) :
    (rfind r id = none →
      cancel_route od r fs id = (.error (404, "Job not found: " ++ id), r, fs)) ∧
    (∀ j, rfind r id = some j →
      (cancel_route od r fs id).1 = .ok ("Job " ++ id ++ " cancelled") ∧
      rfind (cancel_route od r fs id).2.1 id = some { j with status := "cancelled" } ∧
      (cancel_route od r fs id).2.2 =
        (if fs.existsPath (jobDirOf od id) then fs.rmtree (jobDirOf od id) else fs) ∧
      (cancel_route od r fs id).2.2.dirs (jobDirOf od id) = false) := by
  constructor
  · intro h
    simp only [rfind] at h
    simp [cancel_route, cancel_job, h]
  · intro j h
    simp only [rfind] at h
    refine ⟨?_, ?_, ?_, ?_⟩
    · simp [cancel_route, cancel_job, h]
    · simp [cancel_route, cancel_job, h, rfind, rupdate]
    · simp [cancel_route, cancel_job, h]
    · simp only [cancel_route, cancel_job, h, Option.isSome_some, if_true]
      by_cases hex : fs.existsPath (jobDirOf od id) = true
      · simp [hex, FS.rmtree]
      · simp only [Bool.not_eq_true] at hex
        simp only [hex, if_false]
        simp only [FS.existsPath, Bool.or_eq_false_iff] at hex
        exact hex.2

/-- Witness for C9 at a concrete known (and terminal) job. -/
theorem C9_witness :
    (cancel_route "out"
        (rset rEmpty "J" ⟨"completed", 1, some ["drums"], none⟩)
        ((fsEmpty.makedirs "out/J").writeFile "out/J/drums.wav" 5) "J").1 =
      .ok ("Job " ++ "J" ++ " cancelled") ∧
    rfind (cancel_route "out"
        (rset rEmpty "J" ⟨"completed", 1, some ["drums"], none⟩)
        ((fsEmpty.makedirs "out/J").writeFile "out/J/drums.wav" 5) "J").2.1 "J" =
      some ⟨"cancelled", 1, some ["drums"], none⟩ ∧
    (cancel_route "out"
        (rset rEmpty "J" ⟨"completed", 1, some ["drums"], none⟩)
        ((fsEmpty.makedirs "out/J").writeFile "out/J/drums.wav" 5) "J").2.2.dirs
      "out/J" = false := by
  have h := (C9_cancellation "out"
      (rset rEmpty "J" ⟨"completed", 1, some ["drums"], none⟩)
      ((fsEmpty.makedirs "out/J").writeFile "out/J/drums.wav" 5) "J").2
    ⟨"completed", 1, some ["drums"], none⟩ (by rfl)
  exact ⟨h.1, h.2.1, h.2.2.2⟩

/-! ### C10: status responses -/

/-- C10: for an existing job, the status response reports the job id,
status, progress and error, and carries the stems→URL mapping exactly
when the job is completed with a non-empty stems list; each produced stem
maps to `/stems/job_id/stem.wav`. -/
theorem C10_status_response (r : Registry) (id : String) (j : JobStatus)
    (h : rfind r id = some j) :
    get_status r id = .ok
      { job_id := id, status := j.status, progress := some j.progress,
        stems := if j.status = "completed" ∧ listTruthy j.stems then
            some ((j.stems.getD []).map
              (fun st => (st, "/stems/" ++ id ++ "/" ++ st ++ ".wav")))
          else none,
        error := j.error } := by
  simp only [get_status, h]
  split
  · next hc => simp [hc]
  · next hc => simp [hc]

/-- Witness for C10 at a completed job with one stem and at a
non-completed job. -/
theorem C10_witness :
    get_status (rset rEmpty "J" ⟨"completed", 1, some ["vocals"], none⟩) "J" =
      .ok ⟨"J", "completed", some 1, some [("vocals", "/stems/J/vocals.wav")], none⟩ ∧
    get_status (rset rEmpty "K" ⟨"processing", 1/10, none, none⟩) "K" =
      .ok ⟨"K", "processing", some (1/10), none, none⟩ := by
  constructor
  · have h := C10_status_response
      (rset rEmpty "J" ⟨"completed", 1, some ["vocals"], none⟩) "J"
      ⟨"completed", 1, some ["vocals"], none⟩ (by rfl)
    rw [h]
    simp [listTruthy]
  · have h := C10_status_response
      (rset rEmpty "K" ⟨"processing", 1/10, none, none⟩) "K"
      ⟨"processing", 1/10, none, none⟩ (by rfl)
    rw [h]
    simp [listTruthy]

/-! ### C1: terminal states are not absorbing -/

/-- C1 counterexample: a job that has reached the terminal status
`completed` is mutated by a subsequent `cancel_job`: the cancellation
succeeds and a later status read returns `cancelled`, not the terminal
status observed before. -/
theorem C1_counterexample :
    rfind (rset rEmpty "J" ⟨"completed", 1, some ["vocals"], none⟩) "J" =
      some ⟨"completed", 1, some ["vocals"], none⟩ ∧
    (cancel_job "out" (rset rEmpty "J" ⟨"completed", 1, some ["vocals"], none⟩)
      fsEmpty "J").1 = true ∧
    rfind (cancel_job "out" (rset rEmpty "J" ⟨"completed", 1, some ["vocals"], none⟩)
      fsEmpty "J").2.1 "J" = some ⟨"cancelled", 1, some ["vocals"], none⟩ := by
  refine ⟨rfl, ?_, ?_⟩ <;> rfl

/-- C1 (amended): terminal states are not absorbing. `cancel_job` on any
known job — terminal or not — succeeds and overwrites the status with
`cancelled` (keeping the payload), and a `separate` invocation on any job
id replaces the record, ending in `completed` or `failed`. Only passive
status reads leave a terminal record unchanged. -/
theorem C1_terminal_not_absorbing (od : String) (r : Registry) (fs : FS)
    (id : String) (j : JobStatus) (h : rfind r id = some j)
    (hterm : j.status = "completed" ∨ j.status = "failed" ∨ j.status = "cancelled") :
    (cancel_job od r fs id).1 = true ∧
    rfind (cancel_job od r fs id).2.1 id = some { j with status := "cancelled" } ∧
    (∀ inputPath eng, ∃ j', rfind (separate od r fs id inputPath eng).1 id = some j' ∧
      (j'.status = "completed" ∨ j'.status = "failed")) := by
  simp only [rfind] at h
  refine ⟨?_, ?_, ?_⟩
  · simp [cancel_job, h]
  · simp [cancel_job, h, rfind, rupdate]
  · intro inputPath eng
    cases eng with
    | timeout =>
      simp only [separate]
      exact ⟨_, rfind_rset_self _ _ _, Or.inr rfl⟩
    | run rc stderr wf wd =>
      by_cases hrc : rc = 0
      · subst hrc
        simp only [separate]
        rw [if_neg (by simp)]
        exact ⟨_, rfind_rset_self _ _ _, Or.inl rfl⟩
      · simp only [separate]
        rw [if_pos hrc]
        exact ⟨_, rfind_rset_self _ _ _, Or.inr rfl⟩

/-- Witness for C1 at a concrete completed job. -/
theorem C1_witness :
    (cancel_job "od" (rset rEmpty "K" ⟨"failed", 0, none, some "e"⟩) fsEmpty "K").1 =
      true ∧
    rfind (cancel_job "od" (rset rEmpty "K" ⟨"failed", 0, none, some "e"⟩)
      fsEmpty "K").2.1 "K" = some ⟨"cancelled", 0, none, some "e"⟩ := by
  have h := C1_terminal_not_absorbing "od"
    (rset rEmpty "K" ⟨"failed", 0, none, some "e"⟩) fsEmpty "K"
    ⟨"failed", 0, none, some "e"⟩ (by rfl) (Or.inr (Or.inl rfl))
  exact ⟨h.1, h.2.1⟩

/-! ### C3: job creation does not write a pending record -/

/-- C3 counterexample: after a successful upload request the registry has
no record at all for the returned job id — in particular none with status
`pending` and progress 0 — and a status poll issued before the background
task starts returns 404. -/
theorem C3_counterexample :
    (separate_audio rEmpty fsEmpty "uploads" "audio/mpeg" (some "song.mp3")
        "J" true "" 7).response =
      .ok ⟨"J", "processing",
        "Audio separation started. Poll /api/status/\x7bjob_id\x7d for progress."⟩ ∧
    rfind (separate_audio rEmpty fsEmpty "uploads" "audio/mpeg" (some "song.mp3")
        "J" true "" 7).jobs "J" = none ∧
    get_status (separate_audio rEmpty fsEmpty "uploads" "audio/mpeg" (some "song.mp3")
        "J" true "" 7).jobs "J" = .error (404, "Job not found: " ++ "J") := by
  refine ⟨?_, ?_, ?_⟩ <;> rfl

/-- C3 (amended): the upload handler never writes to the job registry, so
at the moment it returns the new job id no record exists for it (a poll
returns 404 until the background task's first write); the URL handler's
first registry write, before any acquisition work, is status
`downloading` with progress 0.05 — not `pending` with progress 0. -/
theorem C3_creation_record :
    (∀ r fs upDir ct fn jobId sOk sErr sz,
      (separate_audio r fs upDir ct fn jobId sOk sErr sz).jobs = r) ∧
    (∀ r jobId, rfind (url_job_init r jobId) jobId =
      some ⟨"downloading", 1/20, none, none⟩) ∧
    (∀ r fs upDir ct fn jobId sOk sErr sz, rfind r jobId = none →
      get_status (separate_audio r fs upDir ct fn jobId sOk sErr sz).jobs jobId =
        .error (404, "Job not found: " ++ jobId)) := by
  have hjobs : ∀ (r : Registry) fs upDir ct fn jobId sOk sErr sz,
      (separate_audio r fs upDir ct fn jobId sOk sErr sz).jobs = r := by
    intro r fs upDir ct fn jobId sOk sErr sz
    simp only [separate_audio]
    repeat' split
    all_goals rfl
  refine ⟨hjobs, ?_, ?_⟩
  · intro r jobId
    simp [url_job_init]
  · intro r fs upDir ct fn jobId sOk sErr sz h
    rw [hjobs]
    simp only [rfind] at h
    simp [get_status, rfind, h]

/-- Witness for C3: a fresh job id polled right after the upload handler
returns is unknown to the registry. -/
theorem C3_witness :
    get_status (separate_audio rEmpty fsEmpty "uploads" "audio/flac"
        (some "b.flac") "K" true "" 3).jobs "K" =
      .error (404, "Job not found: " ++ "K") :=
  C3_creation_record.2.2 rEmpty fsEmpty "uploads" "audio/flac"
    (some "b.flac") "K" true "" 3 rfl

/-! ### C8: direct-URL download failures -/

/-- C8: when the direct-URL download fails by the caller's criteria — the
downloader returned false (non-200 response, network/timeout error under
the 300-second total timeout), or the file is missing or empty — the job
is marked failed with the download-specific message, the request is
answered 400, the background separation task is never scheduled (so the
job never reaches `processing`), and no directory other than the uploads
directory is created (in particular no output directory for the job). -/
theorem C8_download_failure (r : Registry) (fs : FS)
    (upDir urlPath jobId : String) (dl : DownloadOutcome)
    (hfail :
      ¬ (download_audio_from_url (fs.makedirs upDir)
          (upDir ++ "/" ++ jobId ++ urlExt urlPath) dl).1 ∨
      ¬ (download_audio_from_url (fs.makedirs upDir)
          (upDir ++ "/" ++ jobId ++ urlExt urlPath) dl).2.existsPath
          (upDir ++ "/" ++ jobId ++ urlExt urlPath) ∨
      (download_audio_from_url (fs.makedirs upDir)
          (upDir ++ "/" ++ jobId ++ urlExt urlPath) dl).2.getsize
          (upDir ++ "/" ++ jobId ++ urlExt urlPath) = 0) :
    DOWNLOAD_TIMEOUT = 300 ∧
    (separate_from_url_direct r fs upDir urlPath jobId dl).scheduled = false ∧
    rfind (separate_from_url_direct r fs upDir urlPath jobId dl).jobs jobId =
      some ⟨"failed", 0, none,
        some "Failed to download audio from URL. Make sure it's a direct audio link."⟩ ∧
    (separate_from_url_direct r fs upDir urlPath jobId dl).response =
      .error (400, "Failed to download audio. Please provide a direct link to an audio file (MP3, WAV, FLAC).") ∧
    (∀ p, p ≠ upDir →
      (separate_from_url_direct r fs upDir urlPath jobId dl).fs.dirs p = fs.dirs p) := by
  refine ⟨rfl, ?_, ?_, ?_, ?_⟩
  · simp only [separate_from_url_direct]
    rw [if_pos hfail]
  · simp only [separate_from_url_direct]
    rw [if_pos hfail]
    simp [rfind, rset]
  · simp only [separate_from_url_direct]
    rw [if_pos hfail]
  · intro p hp
    simp only [separate_from_url_direct]
    rw [if_pos hfail]
    cases dl with
    | ok n => simp [download_audio_from_url, FS.writeFile, FS.makedirs, hp]
    | non200 st => simp [download_audio_from_url, FS.makedirs, hp]
    | netError pw =>
      cases pw <;>
        simp [download_audio_from_url, FS.writeFile, FS.makedirs, hp]

/-- Witness for C8: an HTTP 404 on a direct URL. -/
theorem C8_witness :
    (separate_from_url_direct rEmpty fsEmpty "uploads" "/track.mp3" "J"
        (.non200 404)).scheduled = false ∧
    rfind (separate_from_url_direct rEmpty fsEmpty "uploads" "/track.mp3" "J"
        (.non200 404)).jobs "J" =
      some ⟨"failed", 0, none,
        some "Failed to download audio from URL. Make sure it's a direct audio link."⟩ ∧
    (separate_from_url_direct rEmpty fsEmpty "uploads" "/track.mp3" "J"
        (.non200 404)).fs.dirs "out/J" = false := by
  have h := C8_download_failure rEmpty fsEmpty "uploads" "/track.mp3" "J"
    (.non200 404) (Or.inl (by decide))
  refine ⟨h.2.1, h.2.2.1, ?_⟩
  rw [h.2.2.2.2 "out/J" (by decide)]
  rfl

/-! ### C2: the per-record invariant -/

/-- C2 counterexample: cancelling a completed job mutates only the status
field, producing a reachable registry holding a record whose stems list
is non-empty while its status is `cancelled`, not `completed`. -/
theorem C2_counterexample :
    Reachable (rupdate (rset rEmpty "J" ⟨"completed", 1, some ["vocals"], none⟩)
      "J" (fun j => { j with status := "cancelled" })) ∧
    rupdate (rset rEmpty "J" ⟨"completed", 1, some ["vocals"], none⟩)
        "J" (fun j => { j with status := "cancelled" }) "J" =
      some ⟨"cancelled", 1, some ["vocals"], none⟩ ∧
    listTruthy (some ["vocals"]) = true ∧ ("cancelled" : String) ≠ "completed" := by
  refine ⟨?_, rfl, rfl, by decide⟩
  exact Reachable.step
    (Reachable.step Reachable.init (Step.sepDone rEmpty "J" ["vocals"]))
    (Step.cancelKnown _ "J" (by rfl))

/-- C2 (amended): in every reachable registry, every record's status is
one of the six defined values, at most one of stems and error is
non-empty, a non-empty stems list occurs only under status `completed` or
`cancelled` (the latter when a completed job was cancelled), and a
non-empty error only under `failed` or `cancelled`. -/
theorem C2_registry_invariant (r : Registry) (hr : Reachable r) : regInv r := by
  induction hr with
  | init =>
    intro id j hj
    simp [rEmpty] at hj
  | @step r0 r1 _ hs ih =>
    cases hs with
    | sepEntry id =>
      intro id' j hj
      rw [rset_apply] at hj
      split at hj
      · cases hj
        simp [recInv, statusValues, listTruthy, strTruthy]
      · exact ih id' j hj
    | sepProg2 id =>
      intro id' j hj
      rw [rupdate_apply] at hj
      split at hj
      · match hr2 : r0 id' with
        | none => rw [hr2] at hj; cases hj
        | some j0 =>
          rw [hr2] at hj
          cases hj
          have h0 := ih id' j0 hr2
          simpa [recInv] using h0
      · exact ih id' j hj
    | sepProg9 id =>
      intro id' j hj
      rw [rupdate_apply] at hj
      split at hj
      · match hr2 : r0 id' with
        | none => rw [hr2] at hj; cases hj
        | some j0 =>
          rw [hr2] at hj
          cases hj
          have h0 := ih id' j0 hr2
          simpa [recInv] using h0
      · exact ih id' j hj
    | sepDone id l =>
      intro id' j hj
      rw [rset_apply] at hj
      split at hj
      · cases hj
        simp [recInv, statusValues, listTruthy, strTruthy]
      · exact ih id' j hj
    | failWrite id m =>
      intro id' j hj
      rw [rset_apply] at hj
      split at hj
      · cases hj
        simp [recInv, statusValues, listTruthy, strTruthy]
      · exact ih id' j hj
    | urlDownloading id =>
      intro id' j hj
      rw [url_job_init, rset_apply] at hj
      split at hj
      · cases hj
        simp [recInv, statusValues, listTruthy, strTruthy]
      · exact ih id' j hj
    | cancelKnown id hid =>
      intro id' j hj
      rw [rupdate_apply] at hj
      split at hj
      · match hr2 : r0 id' with
        | none => rw [hr2] at hj; cases hj
        | some j0 =>
          rw [hr2] at hj
          cases hj
          have h0 := ih id' j0 hr2
          refine ⟨?_, fun _ => Or.inr rfl, fun _ => Or.inr rfl, ?_⟩
          · simp [statusValues]
          · intro hcon
            exact h0.2.2.2 ⟨hcon.1, hcon.2⟩
      · exact ih id' j hj

/-- Witness for C2: the invariant holds at a concrete reachable
registry. -/
theorem C2_witness :
    regInv (rset rEmpty "J" ⟨"processing", 1/10, none, none⟩) :=
  C2_registry_invariant (rset rEmpty "J" ⟨"processing", 1/10, none, none⟩)
    (Reachable.step Reachable.init (Step.sepEntry rEmpty "J"))

/-! ### C6: the token cache -/

/-- C6: (1) with a cached token whose expiry is more than the 300-second
buffer away, the call returns the cached token, changes nothing and
performs no exchange; (2) two calls within the validity window (minus the
buffer) perform at most one exchange: the first call's successful
exchange caches the token, and the second call returns it with zero
exchanges; (3) without a valid cached token a configured service performs
exactly one exchange; (4) an unconfigured service never exchanges and
never changes state, and without a valid cached token it fails fast with
the "not configured" error; (5) a 401 at the resolve endpoint evicts the
cached token, after which a configured service's next call performs
exactly one fresh exchange. -/
theorem C6_token_cache :
    (∀ (s : ScState) (now : ℚ) (ex : TokenExchange),
      strTruthy s.access_token = true →
      now < s.token_expires_at - TOKEN_REFRESH_BUFFER →
      get_token s now ex = (.ok (s.access_token.getD ""), s, 0)) ∧
    (∀ (s : ScState) (t1 t2 : ℚ) (ex2 : TokenExchange) (tok : String) (e : Nat),
      s.configured = true →
      ¬(strTruthy s.access_token = true ∧
        t1 < s.token_expires_at - TOKEN_REFRESH_BUFFER) →
      tok.isEmpty = false →
      t2 < t1 + (e : ℚ) - TOKEN_REFRESH_BUFFER →
      get_token s t1 (.success (some tok) e) =
        (.ok tok, { s with access_token := some tok,
                           token_expires_at := t1 + (e : ℚ) }, 1) ∧
      get_token { s with access_token := some tok,
                         token_expires_at := t1 + (e : ℚ) } t2 ex2 =
        (.ok tok, { s with access_token := some tok,
                           token_expires_at := t1 + (e : ℚ) }, 0)) ∧
    (∀ (s : ScState) (now : ℚ) (ex : TokenExchange),
      s.configured = true →
      ¬(strTruthy s.access_token = true ∧
        now < s.token_expires_at - TOKEN_REFRESH_BUFFER) →
      (get_token s now ex).2.2 = 1) ∧
    (∀ (s : ScState) (now : ℚ) (ex : TokenExchange),
      s.configured = false →
      (get_token s now ex).2.2 = 0 ∧ (get_token s now ex).2.1 = s ∧
      (¬(strTruthy s.access_token = true ∧
          now < s.token_expires_at - TOKEN_REFRESH_BUFFER) →
        (get_token s now ex).1 =
          .error "SoundCloud credentials not configured. Set SOUNDCLOUD_CLIENT_ID and SOUNDCLOUD_CLIENT_SECRET.")) ∧
    (∀ (s : ScState) (now : ℚ) (ex : TokenExchange) (rr : ResolveResp)
        (sr : StreamsResp) (dr : StreamResp) (fs : FS) (p : String),
      strTruthy s.access_token = true →
      now < s.token_expires_at - TOKEN_REFRESH_BUFFER →
      rr.status = 401 →
      (resolve_and_download s now ex rr sr dr fs p).2.1 =
        { s with access_token := none } ∧
      (∀ (now2 : ℚ) (ex2 : TokenExchange), s.configured = true →
        (get_token { s with access_token := none } now2 ex2).2.2 = 1)) := by
  have hcache : ∀ (s : ScState) (now : ℚ) (ex : TokenExchange),
      strTruthy s.access_token = true →
      now < s.token_expires_at - TOKEN_REFRESH_BUFFER →
      get_token s now ex = (.ok (s.access_token.getD ""), s, 0) := by
    intro s now ex h1 h2
    simp only [get_token]
    rw [if_pos ⟨h1, h2⟩]
  have hmiss : ∀ (s : ScState) (now : ℚ) (ex : TokenExchange),
      s.configured = true →
      ¬(strTruthy s.access_token = true ∧
        now < s.token_expires_at - TOKEN_REFRESH_BUFFER) →
      (get_token s now ex).2.2 = 1 := by
    intro s now ex hc hmiss
    simp only [get_token]
    rw [if_neg hmiss]
    rw [if_neg (by simp [hc])]
    cases ex with
    | failure st text => rfl
    | success tok e =>
      by_cases ht : strTruthy tok = true
      · simp only [ht, if_true]
      · simp only [Bool.not_eq_true] at ht
        simp only [ht, Bool.false_eq_true, if_false]
  refine ⟨hcache, ?_, hmiss, ?_, ?_⟩
  · intro s t1 t2 ex2 tok e hc hm htok ht2
    have hfirst : get_token s t1 (.success (some tok) e) =
        (.ok tok, { s with access_token := some tok,
                           token_expires_at := t1 + (e : ℚ) }, 1) := by
      simp only [get_token]
      rw [if_neg hm]
      rw [if_neg (by simp [hc])]
      simp only [strTruthy, htok, Bool.not_false, if_true]
      rfl
    refine ⟨hfirst, ?_⟩
    have := hcache { s with access_token := some tok,
                            token_expires_at := t1 + (e : ℚ) } t2 ex2
      (by simp [strTruthy, htok]) (by simpa using ht2)
    simpa using this
  · intro s now ex hc
    by_cases hv : strTruthy s.access_token = true ∧
        now < s.token_expires_at - TOKEN_REFRESH_BUFFER
    · rw [hcache s now ex hv.1 hv.2]
      exact ⟨rfl, rfl, fun hcon => absurd hv hcon⟩
    · refine ⟨?_, ?_, ?_⟩ <;>
      · first
        | (intro _
           simp only [get_token]
           rw [if_neg hv, if_pos (by simp [hc])])
        | (simp only [get_token]
           rw [if_neg hv, if_pos (by simp [hc])])
  · intro s now ex rr sr dr fs p h1 h2 h401
    constructor
    · simp only [resolve_and_download]
      rw [hcache s now ex h1 h2]
      simp [h401]
    · intro now2 ex2 hc
      exact hmiss { s with access_token := none } now2 ex2 (by simpa using hc)
        (by simp [strTruthy])

/-- Witness for C6: a concrete cached-token hit performs no exchange. -/
theorem C6_witness :
    get_token ⟨"cid", "sec", some "tok", 1000⟩ 0 (.failure 500 "x") =
      (.ok "tok", ⟨"cid", "sec", some "tok", 1000⟩, 0) := by
  have h := C6_token_cache.1 ⟨"cid", "sec", some "tok", 1000⟩ 0 (.failure 500 "x")
    (by rfl) (by norm_num [TOKEN_REFRESH_BUFFER])
  simpa using h

/-! ### C7: track validation on resolved descriptors -/

/-- C7: for a successfully resolved descriptor (HTTP 200 at the resolve
endpoint): a non-track kind is rejected; access `blocked` fails with the
explicit "not available for streaming" error; access `preview` fails with
the explicit preview-only/full-track message before the streams or stream
endpoints are contacted; any other non-`playable` access fails with the
generic not-streamable error naming the access level. In every case the
contacted-endpoint trace is exactly the resolve call. -/
theorem C7_resolve_validation (s : ScState) (now : ℚ) (ex : TokenExchange)
    (rr : ResolveResp) (sr : StreamsResp) (dr : StreamResp) (fs : FS)
    (p tok : String) (htok : (get_token s now ex).1 = .ok tok)
    (h200 : rr.status = 200) :
    ((rr.jsonTrack.getD {}).kind ≠ some "track" →
      (resolve_and_download s now ex rr sr dr fs p).1 =
        .error "Only single track URLs are supported. Playlists and user pages are not supported." ∧
      (resolve_and_download s now ex rr sr dr fs p).2.2.2 = [Endpoint.resolve]) ∧
    ((rr.jsonTrack.getD {}).kind = some "track" →
      ((rr.jsonTrack.getD {}).access.getD "" = "blocked" →
        (resolve_and_download s now ex rr sr dr fs p).1 =
          .error "This track is not available for streaming (e.g. restricted or paywalled)." ∧
        (resolve_and_download s now ex rr sr dr fs p).2.2.2 = [Endpoint.resolve]) ∧
      ((rr.jsonTrack.getD {}).access.getD "" = "preview" →
        (resolve_and_download s now ex rr sr dr fs p).1 =
          .error "Only full playable tracks are supported. This track has preview-only access." ∧
        (resolve_and_download s now ex rr sr dr fs p).2.2.2 = [Endpoint.resolve] ∧
        Endpoint.stream ∉ (resolve_and_download s now ex rr sr dr fs p).2.2.2 ∧
        Endpoint.streams ∉ (resolve_and_download s now ex rr sr dr fs p).2.2.2) ∧
      ((rr.jsonTrack.getD {}).access.getD "" ≠ "playable" →
        (rr.jsonTrack.getD {}).access.getD "" ≠ "blocked" →
        (rr.jsonTrack.getD {}).access.getD "" ≠ "preview" →
        (resolve_and_download s now ex rr sr dr fs p).1 =
          .error ("This track is not streamable (access: " ++
            (rr.jsonTrack.getD {}).access.getD "" ++ ").") ∧
        (resolve_and_download s now ex rr sr dr fs p).2.2.2 = [Endpoint.resolve])) := by
  rcases hget : get_token s now ex with ⟨res, s1, n⟩
  rw [hget] at htok
  simp only at htok
  subst htok
  obtain ⟨st, txt, js⟩ := rr
  have h200' : st = 200 := h200
  subst h200'
  refine ⟨fun hk => ?_, fun hk => ⟨fun hb => ?_, fun hp => ?_, fun hnp hnb hnpr => ?_⟩⟩
  · simp only at hk
    simp only [resolve_and_download, hget]
    rw [if_neg (by decide), if_neg (by decide), if_neg (by decide),
      if_neg (by decide), if_pos hk]
    exact ⟨rfl, rfl⟩
  · simp only at hk hb
    simp only [resolve_and_download, hget]
    rw [if_neg (by decide), if_neg (by decide), if_neg (by decide),
      if_neg (by decide), if_neg (by simp [hk]), if_pos (by simp [hb]),
      if_pos hb]
    exact ⟨rfl, rfl⟩
  · simp only at hk hp
    simp only [resolve_and_download, hget]
    rw [if_neg (by decide), if_neg (by decide), if_neg (by decide),
      if_neg (by decide), if_neg (by simp [hk]), if_pos (by simp [hp]),
      if_neg (by simp [hp]), if_pos hp]
    exact ⟨rfl, rfl, by simp, by simp⟩
  · simp only at hk hnp hnb hnpr
    simp only [resolve_and_download, hget]
    rw [if_neg (by decide), if_neg (by decide), if_neg (by decide),
      if_neg (by decide), if_neg (by simp [hk]), if_pos (by simp [hnp]),
      if_neg hnb, if_neg hnpr]
    exact ⟨rfl, rfl⟩

/-- Witness for C7: a preview-only track is rejected with the explicit
message and only the resolve endpoint was contacted. -/
theorem C7_witness :
    (resolve_and_download ⟨"cid", "sec", some "tok", 1000⟩ 0 (.failure 0 "")
        ⟨200, "", some ⟨some "track", some "preview", none, none⟩⟩
        ⟨404, true, none, none, none⟩ ⟨200, 3⟩ fsEmpty "out.mp3").1 =
      .error "Only full playable tracks are supported. This track has preview-only access." ∧
    (resolve_and_download ⟨"cid", "sec", some "tok", 1000⟩ 0 (.failure 0 "")
        ⟨200, "", some ⟨some "track", some "preview", none, none⟩⟩
        ⟨404, true, none, none, none⟩ ⟨200, 3⟩ fsEmpty "out.mp3").2.2.2 =
      [Endpoint.resolve] := by
  have htok : (get_token ⟨"cid", "sec", some "tok", 1000⟩ 0 (.failure 0 "")).1 =
      .ok "tok" := by
    simp only [get_token]
    rw [if_pos ⟨rfl, by norm_num [TOKEN_REFRESH_BUFFER]⟩]
    rfl
  have h := (C7_resolve_validation ⟨"cid", "sec", some "tok", 1000⟩ 0 (.failure 0 "")
      ⟨200, "", some ⟨some "track", some "preview", none, none⟩⟩
      ⟨404, true, none, none, none⟩ ⟨200, 3⟩ fsEmpty "out.mp3" "tok" htok rfl).2
    rfl
  exact ⟨(h.2.1 rfl).1, (h.2.1 rfl).2.1⟩

/-! ### C4: path disjointness lemmas -/

theorem strAppend_cancel_left {a b c : String} (h : a ++ b = a ++ c) : b = c := by
  have hd := congrArg String.data h
  simp only [String.data_append] at hd
  exact String.ext (List.append_cancel_left hd)

theorem strAppend_cancel_right {a b c : String} (h : b ++ a = c ++ a) : b = c := by
  have hd := congrArg String.data h
  simp only [String.data_append] at hd
  exact String.ext (List.append_cancel_right hd)

/-- Distinct stem names give distinct source paths. -/
theorem stemSrc_inj (od id inputPath : String) {sa sb : String} (h : sa ≠ sb) :
    stemSrc od id inputPath sa ≠ stemSrc od id inputPath sb := by
  intro he
  exact h (strAppend_cancel_left (strAppend_cancel_right he))

/-- A flat destination path is never one of the nested source paths: after
the common `output_dir/job_id/` prefix, the destination continues with a
canonical stem name while the source continues with the engine directory
`htdemucs_ft`. -/
theorem stemDst_ne_stemSrc (od id inputPath : String) {s : String}
    (hs : s ∈ STEMS) (t : String) :
    stemDst od id s ≠ stemSrc od id inputPath t := by
  intro he
  have hd := congrArg String.data he
  simp only [stemDst, stemSrc, demucsOutputOf, demucsSubdirOf, jobDirOf, MODEL,
    String.data_append, List.append_assoc] at hd
  have hd1 := List.append_cancel_left hd
  have hd2 := List.append_cancel_left hd1
  have hd3 := List.append_cancel_left hd2
  have hd4 := List.append_cancel_left hd3
  fin_cases hs <;>
    simp only [show "drums".data = ['d', 'r', 'u', 'm', 's'] from rfl,
      show "bass".data = ['b', 'a', 's', 's'] from rfl,
      show "vocals".data = ['v', 'o', 'c', 'a', 'l', 's'] from rfl,
      show "other".data = ['o', 't', 'h', 'e', 'r'] from rfl,
      show "htdemucs_ft".data =
        ['h', 't', 'd', 'e', 'm', 'u', 'c', 's', '_', 'f', 't'] from rfl,
      List.cons_append, List.cons.injEq] at hd4 <;>
    exact absurd hd4.1 (by decide)

/-! ### C4: lemmas about the stem-relocation loop -/

theorem moveFold_dirs (jd dO : String) (l : List String) :
    ∀ acc : List String × FS, (l.foldl (moveStem jd dO) acc).2.dirs = acc.2.dirs := by
  induction l with
  | nil => intro acc; rfl
  | cons s t ih =>
    intro acc
    rw [List.foldl_cons, ih]
    by_cases h : acc.2.existsPath (dO ++ "/" ++ s ++ ".wav") = true <;>
      simp [moveStem, h, FS.move, FS.removeFile, FS.writeFile]

/-- The stems recorded by the relocation loop are exactly the stems whose
source file existed when the loop started. -/
theorem moveFold_found (jd dO : String) (l : List String) :
    ∀ (acc : List String) (fs : FS), l.Nodup →
    (∀ sa, sa ∈ l → ∀ sb, sb ∈ l → sa ≠ sb →
      dO ++ "/" ++ sa ++ ".wav" ≠ dO ++ "/" ++ sb ++ ".wav") →
    (∀ sa, sa ∈ l → ∀ sb, sb ∈ l →
      jd ++ "/" ++ sa ++ ".wav" ≠ dO ++ "/" ++ sb ++ ".wav") →
    (l.foldl (moveStem jd dO) (acc, fs)).1 =
      acc ++ l.filter (fun st => fs.existsPath (dO ++ "/" ++ st ++ ".wav")) := by
  induction l with
  | nil => intro acc fs _ _ _; simp
  | cons s t ih =>
    intro acc fs hnd hss hds
    have hs_mem : s ∈ s :: t := List.mem_cons_self s t
    have hnotmem : s ∉ t := (List.nodup_cons.mp hnd).1
    have hndt : t.Nodup := (List.nodup_cons.mp hnd).2
    rw [List.foldl_cons]
    by_cases hex : fs.existsPath (dO ++ "/" ++ s ++ ".wav") = true
    · have hstep : moveStem jd dO (acc, fs) s =
          (acc ++ [s], fs.move (dO ++ "/" ++ s ++ ".wav") (jd ++ "/" ++ s ++ ".wav")) := by
        simp [moveStem, hex]
      rw [hstep]
      rw [ih (acc ++ [s]) _ hndt
        (fun sa ha sb hb => hss sa (List.mem_cons_of_mem s ha) sb (List.mem_cons_of_mem s hb))
        (fun sa ha sb hb => hds sa (List.mem_cons_of_mem s ha) sb (List.mem_cons_of_mem s hb))]
      rw [List.filter_congr (fun u hu => existsPath_move_ne fs _ _ _
        (hss u (List.mem_cons_of_mem s hu) s hs_mem (fun he => hnotmem (he ▸ hu)))
        (Ne.symm (hds s hs_mem u (List.mem_cons_of_mem s hu))))]
      simp [List.filter_cons, hex, List.append_assoc]
    · have hstep : moveStem jd dO (acc, fs) s = (acc, fs) := by
        simp [moveStem, hex]
      rw [hstep]
      rw [ih acc fs hndt
        (fun sa ha sb hb => hss sa (List.mem_cons_of_mem s ha) sb (List.mem_cons_of_mem s hb))
        (fun sa ha sb hb => hds sa (List.mem_cons_of_mem s ha) sb (List.mem_cons_of_mem s hb))]
      simp [List.filter_cons, hex]

/-- A file that is none of the loop's source paths survives the loop. -/
theorem moveFold_preserves_file (jd dO : String) (l : List String) :
    ∀ (acc : List String) (fs : FS) (q : String),
    (∀ u, u ∈ l → q ≠ dO ++ "/" ++ u ++ ".wav") →
    fs.existsFile q = true →
    (l.foldl (moveStem jd dO) (acc, fs)).2.existsFile q = true := by
  induction l with
  | nil => intro acc fs q _ hq; exact hq
  | cons s t ih =>
    intro acc fs q hq hfile
    rw [List.foldl_cons]
    by_cases hex : fs.existsPath (dO ++ "/" ++ s ++ ".wav") = true
    · have hstep : moveStem jd dO (acc, fs) s =
          (acc ++ [s], fs.move (dO ++ "/" ++ s ++ ".wav") (jd ++ "/" ++ s ++ ".wav")) := by
        simp [moveStem, hex]
      rw [hstep]
      exact ih _ _ q (fun u hu => hq u (List.mem_cons_of_mem s hu))
        (existsFile_move_preserved fs _ _ q (hq s (List.mem_cons_self s t)) hfile)
    · have hstep : moveStem jd dO (acc, fs) s = (acc, fs) := by
        simp [moveStem, hex]
      rw [hstep]
      exact ih _ _ q (fun u hu => hq u (List.mem_cons_of_mem s hu)) hfile

/-- Every stem whose source file existed when the loop started has been
moved to its flat destination when the loop ends. -/
theorem moveFold_dst_present (jd dO : String) (l : List String) :
    ∀ (acc : List String) (fs : FS), l.Nodup →
    (∀ sa, sa ∈ l → ∀ sb, sb ∈ l → sa ≠ sb →
      dO ++ "/" ++ sa ++ ".wav" ≠ dO ++ "/" ++ sb ++ ".wav") →
    (∀ sa, sa ∈ l → ∀ sb, sb ∈ l →
      jd ++ "/" ++ sa ++ ".wav" ≠ dO ++ "/" ++ sb ++ ".wav") →
    ∀ s, s ∈ l → fs.existsPath (dO ++ "/" ++ s ++ ".wav") = true →
    (l.foldl (moveStem jd dO) (acc, fs)).2.existsFile (jd ++ "/" ++ s ++ ".wav") = true := by
  induction l with
  | nil => intro acc fs _ _ _ s hs; cases hs
  | cons s' t ih =>
    intro acc fs hnd hss hds s hs hex
    have hnotmem : s' ∉ t := (List.nodup_cons.mp hnd).1
    have hndt : t.Nodup := (List.nodup_cons.mp hnd).2
    rw [List.foldl_cons]
    rcases List.mem_cons.mp hs with rfl | hst
    · have hstep : moveStem jd dO (acc, fs) s =
          (acc ++ [s], fs.move (dO ++ "/" ++ s ++ ".wav") (jd ++ "/" ++ s ++ ".wav")) := by
        simp [moveStem, hex]
      rw [hstep]
      refine moveFold_preserves_file jd dO t _ _ _
        (fun u hu => hds s hs u (List.mem_cons_of_mem s hu)) ?_
      simp [FS.move, FS.writeFile, FS.existsFile]
    · by_cases hex' : fs.existsPath (dO ++ "/" ++ s' ++ ".wav") = true
      · have hstep : moveStem jd dO (acc, fs) s' =
            (acc ++ [s'], fs.move (dO ++ "/" ++ s' ++ ".wav") (jd ++ "/" ++ s' ++ ".wav")) := by
          simp [moveStem, hex']
        rw [hstep]
        refine ih _ _ hndt
          (fun sa ha sb hb => hss sa (List.mem_cons_of_mem s' ha) sb (List.mem_cons_of_mem s' hb))
          (fun sa ha sb hb => hds sa (List.mem_cons_of_mem s' ha) sb (List.mem_cons_of_mem s' hb))
          s hst ?_
        rw [existsPath_move_ne fs _ _ _
          (hss s (List.mem_cons_of_mem s' hst) s' (List.mem_cons_self s' t)
            (fun he => hnotmem (he ▸ hst)))
          (Ne.symm (hds s' (List.mem_cons_self s' t) s (List.mem_cons_of_mem s' hst)))]
        exact hex
      · have hstep : moveStem jd dO (acc, fs) s' = (acc, fs) := by
          simp [moveStem, hex']
        rw [hstep]
        exact ih _ _ hndt
          (fun sa ha sb hb => hss sa (List.mem_cons_of_mem s' ha) sb (List.mem_cons_of_mem s' hb))
          (fun sa ha sb hb => hds sa (List.mem_cons_of_mem s' ha) sb (List.mem_cons_of_mem s' hb))
          s hst hex

/-- Unfolding of `separate` on a successful (exit code 0) engine run. -/
theorem separate_run0 (od : String) (r : Registry) (fs : FS)
    (id inputPath stderr : String) (wf : List (String × Nat)) (wd : List String) :
    separate od r fs id inputPath (.run 0 stderr wf wd) =
      (let fs1 := applyRun ((fs.makedirs (jobDirOf od id))) wf wd
       let res := STEMS.foldl
         (moveStem (jobDirOf od id) (demucsOutputOf od id inputPath)) ([], fs1)
       let fs3 := if res.2.existsPath (demucsSubdirOf od id) then
           res.2.rmtree (demucsSubdirOf od id)
         else res.2
       let fs4 := if fs3.existsPath inputPath then fs3.removeFile inputPath else fs3
       (rset (rupdate (rupdate (rset r id ⟨"processing", 1/10, none, none⟩) id
           (fun j => { j with progress := 1/5 })) id
           (fun j => { j with progress := 9/10 })) id
         ⟨"completed", 1, some res.1, none⟩, fs4)) := by
  simp only [separate]
  rw [if_neg (by simp)]

/-- C4: on a successful engine invocation (exit code 0) the job record is
replaced by `completed` with progress 1.0 and exactly the stems whose
files the engine produced (a sublist of the four canonical names); each
produced stem file ends up in the flat output directory; the
engine-specific subdirectory and everything under it is deleted; and the
original input file is deleted. The path hypotheses record that the
engine created its nested subdirectory and that the input path does not
alias a stem destination (always true for the real layout, where the
input lives in the uploads directory). -/
theorem C4_success_completion (od : String) (r : Registry) (fs : FS)
    (id inputPath stderr : String) (wf : List (String × Nat)) (wd : List String)
    (hsub : (applyRun ((fs.makedirs (jobDirOf od id))) wf wd).dirs
      (demucsSubdirOf od id) = true)
    (hflat : ∀ st, st ∈ STEMS → under (demucsSubdirOf od id) (stemDst od id st) = false)
    (hinp : ∀ st, st ∈ STEMS → inputPath ≠ stemDst od id st) :
    rfind (separate od r fs id inputPath (.run 0 stderr wf wd)).1 id =
      some ⟨"completed", 1, some (STEMS.filter (fun st =>
        (applyRun ((fs.makedirs (jobDirOf od id))) wf wd).existsPath
          (stemSrc od id inputPath st))), none⟩ ∧
    (STEMS.filter (fun st =>
      (applyRun ((fs.makedirs (jobDirOf od id))) wf wd).existsPath
        (stemSrc od id inputPath st))).Sublist STEMS ∧
    (∀ st, st ∈ STEMS →
      (applyRun ((fs.makedirs (jobDirOf od id))) wf wd).existsPath
        (stemSrc od id inputPath st) = true →
      (separate od r fs id inputPath (.run 0 stderr wf wd)).2.existsFile
        (stemDst od id st) = true) ∧
    (separate od r fs id inputPath (.run 0 stderr wf wd)).2.dirs
      (demucsSubdirOf od id) = false ∧
    (∀ p, under (demucsSubdirOf od id) p = true →
      (separate od r fs id inputPath (.run 0 stderr wf wd)).2.files p = none) ∧
    (separate od r fs id inputPath (.run 0 stderr wf wd)).2.files inputPath = none := by
  have hnd : STEMS.Nodup := by decide
  have hss : ∀ sa, sa ∈ STEMS → ∀ sb, sb ∈ STEMS → sa ≠ sb →
      demucsOutputOf od id inputPath ++ "/" ++ sa ++ ".wav" ≠
      demucsOutputOf od id inputPath ++ "/" ++ sb ++ ".wav" :=
    fun sa _ sb _ hne => stemSrc_inj od id inputPath hne
  have hds : ∀ sa, sa ∈ STEMS → ∀ sb, sb ∈ STEMS →
      jobDirOf od id ++ "/" ++ sa ++ ".wav" ≠
      demucsOutputOf od id inputPath ++ "/" ++ sb ++ ".wav" :=
    fun sa ha sb _ => stemDst_ne_stemSrc od id inputPath ha sb
  have hdirs_fold : (STEMS.foldl
      (moveStem (jobDirOf od id) (demucsOutputOf od id inputPath))
      ([], applyRun ((fs.makedirs (jobDirOf od id))) wf wd)).2.dirs =
      (applyRun ((fs.makedirs (jobDirOf od id))) wf wd).dirs :=
    moveFold_dirs _ _ STEMS _
  have hex2 : (STEMS.foldl
      (moveStem (jobDirOf od id) (demucsOutputOf od id inputPath))
      ([], applyRun ((fs.makedirs (jobDirOf od id))) wf wd)).2.existsPath
      (demucsSubdirOf od id) = true := by
    simp [FS.existsPath, hdirs_fold, hsub]
  refine ⟨?_, List.filter_sublist STEMS, ?_, ?_, ?_, ?_⟩
  · simp only [separate_run0]
    rw [rfind_rset_self]
    rw [moveFold_found (jobDirOf od id) (demucsOutputOf od id inputPath) STEMS []
      (applyRun ((fs.makedirs (jobDirOf od id))) wf wd) hnd hss hds]
    rfl
  · intro st hst hsrc
    simp only [separate_run0]
    rw [if_pos hex2]
    have hdst : (STEMS.foldl
        (moveStem (jobDirOf od id) (demucsOutputOf od id inputPath))
        ([], applyRun ((fs.makedirs (jobDirOf od id))) wf wd)).2.existsFile
        (stemDst od id st) = true :=
      moveFold_dst_present _ _ STEMS [] _ hnd hss hds st hst hsrc
    have hrm : ((STEMS.foldl
        (moveStem (jobDirOf od id) (demucsOutputOf od id inputPath))
        ([], applyRun ((fs.makedirs (jobDirOf od id))) wf wd)).2.rmtree
        (demucsSubdirOf od id)).existsFile (stemDst od id st) = true := by
      simp only [FS.rmtree, FS.existsFile] at hdst ⊢
      rw [hflat st hst]
      simpa using hdst
    split
    · simp only [FS.removeFile, FS.existsFile] at hrm ⊢
      rw [if_neg (Ne.symm (hinp st hst))]
      exact hrm
    · exact hrm
  · simp only [separate_run0]
    rw [if_pos hex2]
    split
    · simp [FS.removeFile, FS.rmtree]
    · simp [FS.rmtree]
  · intro p hp
    simp only [separate_run0]
    rw [if_pos hex2]
    split
    · simp [FS.removeFile, FS.rmtree, hp]
    · simp [FS.rmtree, hp]
  · simp only [separate_run0]
    rw [if_pos hex2]
    split
    · simp [FS.removeFile]
    · next hfin =>
      simp only [FS.existsPath, FS.existsFile, Bool.or_eq_true, not_or,
        Bool.not_eq_true] at hfin
      cases hcase : ((STEMS.foldl
          (moveStem (jobDirOf od id) (demucsOutputOf od id inputPath))
          ([], applyRun ((fs.makedirs (jobDirOf od id))) wf wd)).2.rmtree
          (demucsSubdirOf od id)).files inputPath with
      | none => rfl
      | some v => rw [hcase] at hfin; simp at hfin

/-- Witness for C4: a concrete run in which the engine produced drums and
vocals but omitted bass and other. -/
theorem C4_witness :
    rfind (separate "out" rEmpty (fsEmpty.writeFile "up/J.mp3" 9) "J" "up/J.mp3"
        (.run 0 "" [("out/J/htdemucs_ft/J/drums.wav", 5),
                    ("out/J/htdemucs_ft/J/vocals.wav", 6)]
          ["out/J/htdemucs_ft", "out/J/htdemucs_ft/J"])).1 "J" =
      some ⟨"completed", 1, some ["drums", "vocals"], none⟩ ∧
    (separate "out" rEmpty (fsEmpty.writeFile "up/J.mp3" 9) "J" "up/J.mp3"
        (.run 0 "" [("out/J/htdemucs_ft/J/drums.wav", 5),
                    ("out/J/htdemucs_ft/J/vocals.wav", 6)]
          ["out/J/htdemucs_ft", "out/J/htdemucs_ft/J"])).2.existsFile
      "out/J/drums.wav" = true ∧
    (separate "out" rEmpty (fsEmpty.writeFile "up/J.mp3" 9) "J" "up/J.mp3"
        (.run 0 "" [("out/J/htdemucs_ft/J/drums.wav", 5),
                    ("out/J/htdemucs_ft/J/vocals.wav", 6)]
          ["out/J/htdemucs_ft", "out/J/htdemucs_ft/J"])).2.dirs
      "out/J/htdemucs_ft" = false ∧
    (separate "out" rEmpty (fsEmpty.writeFile "up/J.mp3" 9) "J" "up/J.mp3"
        (.run 0 "" [("out/J/htdemucs_ft/J/drums.wav", 5),
                    ("out/J/htdemucs_ft/J/vocals.wav", 6)]
          ["out/J/htdemucs_ft", "out/J/htdemucs_ft/J"])).2.files "up/J.mp3" =
      none := by
  have h := C4_success_completion "out" rEmpty (fsEmpty.writeFile "up/J.mp3" 9)
    "J" "up/J.mp3" ""
    [("out/J/htdemucs_ft/J/drums.wav", 5), ("out/J/htdemucs_ft/J/vocals.wav", 6)]
    ["out/J/htdemucs_ft", "out/J/htdemucs_ft/J"]
    (by decide) (by decide) (by decide)
  refine ⟨?_, ?_, ?_, ?_⟩
  · rw [h.1]
    decide
  · exact h.2.2.1 "drums" (by decide) (by decide)
  · exact h.2.2.2.1
  · exact h.2.2.2.2.2

end MusicVisualizer
